import Mathlib

/-
  Shallow embedding of the URAK authentication/session-security core.

  Sources embedded:
    app/core/security.py   (SecurityConfig fallback, JWTManager, CSRFManager,
                            PasswordManager, SecurityValidator)
    app/models/db_models.py (User.can_login, UserSession, LoginLog columns)
    app/models/user.py      (UserRepository.authenticate_user, create_session,
                            get_session, _cleanup_expired_sessions)
    app/services/auth.py    (AuthenticationService: login, validate_token,
                            refresh_token, logout, logout_all_sessions,
                            change_password)
    app/services/audit.py   (AuditLogger: log_event, _analyze_security_patterns,
                            _get_recent_events_by_ip)

  Modelling conventions:
  - Timestamps are `Int` (seconds).  External cryptographic primitives
    (bcrypt, PBKDF2, HMAC signing) are modelled as injective tagging
    functions; a signed token is its claim list together with the signing
    key that produced it, and signature verification is key comparison.
  - Randomness (uuid4, token_urlsafe, salt generation) is supplied by the
    caller as explicit fresh-value parameters.
  - Database rows live in plain lists; SQLAlchemy queries become list
    searches with the same predicates; commits become list updates.
  - `async` plumbing is elided: a repository call is modelled by the value
    the awaited call produces.
  - JSON claim values are the inductive `JVal`; Python truthiness of a
    claim value is `jvTruthy`.
-/

/-- JSON-like claim value stored in a token payload or audit detail map. -/
inductive JVal where
  | s : String → JVal
  | n : Int → JVal
  | l : List String → JVal
  | nullv : JVal
deriving DecidableEq, Repr

/-- Python truthiness of a claim value (`if session_id:` etc.). -/
def jvTruthy : JVal → Bool
  | JVal.s v => v ≠ ""
  | JVal.n k => k ≠ 0
  | JVal.l xs => xs ≠ []
  | JVal.nullv => false

/-- Dictionary lookup on an insertion-ordered claim list (`payload.get(k)`). -/
def lookupKey : List (String × JVal) → String → Option JVal
  | [], _ => none
  | p :: rest, k => if p.1 == k then some p.2 else lookupKey rest k

/-- Python `dict` update with one key: replace in place if the key exists,
otherwise append preserving insertion order. -/
def setKey (d : List (String × JVal)) (k : String) (v : JVal) : List (String × JVal) :=
  if d.any (fun p => p.1 == k) then
    d.map (fun p => if p.1 == k then (k, v) else p)
  else
    d ++ [(k, v)]

/- SecurityConfig: the configuration file is external; the embedded values
are the fallback configuration from `SecurityConfig._load_config`. -/

def jwt_secret_key : String := "fallback-secret-key-change-in-production"

def access_token_expire_minutes : Int := 30

def refresh_token_expire_hours : Int := 48

/-- A signed compact token: the claim list plus the key it was signed with.
Signature verification is modelled as comparing the signing key. -/
structure JWT where
  payload : List (String × JVal)
  signKey : String
deriving DecidableEq, Repr

/-- `JWTManager.create_access_token` with the default expiry
(no `expires_delta` argument is ever passed in the service layer). -/
def create_access_token (data : List (String × JVal)) (now : Int) : JWT :=
  let expire := now + access_token_expire_minutes * 60
  let p1 := setKey data "exp" (JVal.n expire)
  let p2 := setKey p1 "iat" (JVal.n now)
  let p3 := setKey p2 "type" (JVal.s "access")
  let p4 := setKey p3 "iss" (JVal.s "URAK-AUTH-SERVICE")
  let p5 := setKey p4 "aud" (JVal.s "URAK-USERS")
  { payload := p5, signKey := jwt_secret_key }

/-- `JWTManager.create_refresh_token`. -/
def create_refresh_token (data : List (String × JVal)) (now : Int) : JWT :=
  let expire := now + refresh_token_expire_hours * 3600
  let p1 := setKey data "exp" (JVal.n expire)
  let p2 := setKey p1 "iat" (JVal.n now)
  let p3 := setKey p2 "type" (JVal.s "refresh")
  let p4 := setKey p3 "iss" (JVal.s "URAK-AUTH-SERVICE")
  let p5 := setKey p4 "aud" (JVal.s "URAK-USERS")
  { payload := p5, signKey := jwt_secret_key }

/-- `JWTManager.verify_token`: signature, audience, issuer and expiry checks
(performed by `jwt.decode`), then the explicit token-type comparison.
A missing or non-string `aud`/`iss`, a wrong signature, an `exp` at or
before `now`, or a type mismatch all yield `none`. -/
def audClaimOk (p : List (String × JVal)) : Bool :=
  match lookupKey p "aud" with
  | some (JVal.s a) => a == "URAK-USERS"
  | _ => false

def issClaimOk (p : List (String × JVal)) : Bool :=
  match lookupKey p "iss" with
  | some (JVal.s i) => i == "URAK-AUTH-SERVICE"
  | _ => false

def expClaimExpired (p : List (String × JVal)) (now : Int) : Bool :=
  match lookupKey p "exp" with
  | some (JVal.n e) => decide (e ≤ now)
  | some _ => true
  | none => false

def typeClaimIs (p : List (String × JVal)) (token_type : String) : Bool :=
  match lookupKey p "type" with
  | some (JVal.s ty) => ty == token_type
  | _ => false

def verify_token (t : JWT) (token_type : String) (now : Int) : Option (List (String × JVal)) :=
  if !(t.signKey == jwt_secret_key) then none
  else if !audClaimOk t.payload then none
  else if !issClaimOk t.payload then none
  else if expClaimExpired t.payload now then none
  else if !typeClaimIs t.payload token_type then none
  else some t.payload

/-- Model of the external bcrypt primitive (`pwd_context.hash`): an
injective tagging function standing in for the cryptographic hash. -/
def bcryptHash (password : String) : String := "bcrypt$" ++ password

/-- Model of `pwd_context.verify`. -/
def bcryptVerify (password hashed : String) : Bool := hashed == bcryptHash password

/-- Model of the external PBKDF2-SHA256 derivation used by
`PasswordManager.hash_password_pbkdf2`. -/
def pbkdf2Hash (password salt : String) : String := "pbkdf2$" ++ salt ++ "$" ++ password

/-- `PasswordManager.hash_password_pbkdf2`; the fresh random salt is an
explicit parameter. -/
def hash_password_pbkdf2 (password saltFresh : String) : String × String :=
  (pbkdf2Hash password saltFresh, saltFresh)

/-- `PasswordManager.verify_password_pbkdf2`. -/
def verify_password_pbkdf2 (password hashed salt : String) : Bool :=
  hashed == pbkdf2Hash password salt

/-- `CSRFManager.verify_csrf_token`: `secrets.compare_digest`, i.e. string
equality (constant-time in the source). -/
def verify_csrf_token (token expected : String) : Bool := token == expected

/-- The special-character set of `SecurityValidator.validate_password_strength`. -/
def specialChars : List Char := "!@#$%^&*()_+-=[]\x7b\x7d|;:,.<>?".toList

/-- `SecurityValidator.validate_password_strength`. -/
def validate_password_strength (password : String) : Bool × List String :=
  let e1 := if password.length < 8 then
    ["Password must be at least 8 characters long"] else []
  let e2 := if !(password.toList.any (fun c => c.isUpper)) then
    ["Password must contain at least one uppercase letter"] else []
  let e3 := if !(password.toList.any (fun c => c.isLower)) then
    ["Password must contain at least one lowercase letter"] else []
  let e4 := if !(password.toList.any (fun c => c.isDigit)) then
    ["Password must contain at least one number"] else []
  let e5 := if !(password.toList.any (fun c => specialChars.contains c)) then
    ["Password must contain at least one special character"] else []
  let errors := e1 ++ e2 ++ e3 ++ e4 ++ e5
  (errors.length == 0, errors)

/-- `"; ".join(errors)` from `change_password`. -/
def joinSemicolon : List String → String
  | [] => ""
  | e :: rest => rest.foldl (fun acc x => acc ++ "; " ++ x) e

/- Data model: db_models.py rows.  Bookkeeping columns irrelevant to the
security logic (created_at/updated_at audit timestamps on users, two-factor
fields, session_data) are elided. -/

/-- `db_models.User` row. -/
structure DBUser where
  id : String
  username : String
  email : String
  password_hash : String
  salt : String
  role : String
  permissions : List String
  status : String
  is_active : Bool
  last_login : Option Int
  login_attempts : Int
  locked_until : Option Int
  password_changed_at : Option Int
deriving DecidableEq, Repr

/-- `db_models.User.can_login`. -/
def DBUser.can_login (u : DBUser) (now : Int) : Bool × String :=
  if !u.is_active then (false, "用户账户已被禁用")
  else if !(u.status == "active") then
    if u.status == "suspended" then (false, "用户账户已被暂停")
    else if u.status == "pending" then (false, "用户账户待激活")
    else if u.status == "inactive" then (false, "用户账户未激活")
    else (false, "用户账户状态异常")
  else if (match u.locked_until with
           | some t => decide (now < t)
           | none => false) then (false, "用户账户已被锁定")
  else (true, "可以登录")

/-- `db_models.LoginLog` row. -/
structure LoginLog where
  id : String
  user_id : Option String
  ip_address : String
  user_agent : String
  success : Bool
  failure_reason : Option String
  created_at : Int
deriving DecidableEq, Repr

/-- `db_models.UserSession` row. -/
structure UserSession where
  id : String
  user_id : String
  session_id : String
  ip_address : String
  user_agent : String
  last_activity : Int
  is_active : Bool
  csrf_token : Option String
  expires_at : Int
  created_at : Int
deriving DecidableEq, Repr

/-- `UserRepository.authenticate_user`: looks the user up by username,
records a `LoginLog`, and returns the user only when the account is
active (`is_active && status == "active"`) and the bcrypt comparison
succeeds.  The fresh uuid of the log row is the `logId` parameter; on
success the returned user carries the updated `last_login`. -/
def authenticate_user (users : List DBUser) (username password ip ua : String)
    (now : Int) (logId : String) : Option DBUser × LoginLog :=
  match users.find? (fun u => u.username == username) with
  | none =>
    (none, { id := logId, user_id := none, ip_address := ip, user_agent := ua,
             success := false, failure_reason := some "用户不存在", created_at := now })
  | some u =>
    if !u.is_active || !(u.status == "active") then
      (none, { id := logId, user_id := some u.id, ip_address := ip, user_agent := ua,
               success := false, failure_reason := some "用户已被禁用", created_at := now })
    else if !(bcryptVerify password u.password_hash) then
      (none, { id := logId, user_id := some u.id, ip_address := ip, user_agent := ua,
               success := false, failure_reason := some "密码错误", created_at := now })
    else
      (some { u with last_login := some now },
       { id := logId, user_id := some u.id, ip_address := ip, user_agent := ua,
         success := true, failure_reason := none, created_at := now })

/-- `UserRepository.get_session`: the query filters on
`session_id == token && is_active && expires_at > now`, so an expired or
revoked row behaves as not-found. -/
def get_session (sessions : List UserSession) (session_token : String)
    (now : Int) : Option UserSession :=
  sessions.find? (fun s =>
    s.session_id == session_token && s.is_active && decide (now < s.expires_at))

/-- `UserRepository._cleanup_expired_sessions`: deletes the user's rows with
`expires_at <= now` (the first, result-discarding query in the source is a
no-op). -/
def cleanup_expired_sessions (sessions : List UserSession) (uid : String)
    (now : Int) : List UserSession :=
  sessions.filter (fun s => !(s.user_id == uid && decide (s.expires_at ≤ now)))

/-- `UserRepository.create_session`: cleanup of the user's expired rows,
then a fresh 24-hour session; `rowId`/`sid` are the fresh uuids. -/
def create_session (sessions : List UserSession) (uid ip ua : String)
    (now : Int) (rowId sid : String) : UserSession × List UserSession :=
  let cleaned := cleanup_expired_sessions sessions uid now
  let ns : UserSession :=
    { id := rowId, user_id := uid, session_id := sid, ip_address := ip,
      user_agent := ua, last_activity := now, is_active := true,
      csrf_token := none, expires_at := now + 24 * 3600, created_at := now }
  (ns, cleaned ++ [ns])

/-- `UserRepository.update_session` / merging a mutated row back: replace
the row with the same primary key. -/
def updateSessionRow (sessions : List UserSession) (s : UserSession) : List UserSession :=
  sessions.map (fun x => if x.id == s.id then s else x)

/-- Modelled from the spec: `user.invalidate_session(session_id)` is called
by `AuthenticationService.logout` but no such method is defined under the
source tree (only the caller exists).  Spec §4.4: `revoke(session_id)` sets
`is_active=false` on that session.  The target id is the (possibly
non-string) claim value the caller passes. -/
def invalidate_session (sessions : List UserSession) (target : JVal) : List UserSession :=
  sessions.map (fun s =>
    if JVal.s s.session_id == target then { s with is_active := false } else s)

/-- Modelled from the spec: `user.invalidate_all_sessions()` is called by
`logout_all_sessions` and `change_password` but no such method is defined
under the source tree.  Spec §4.4/§4.7: `revoke_all(user_id)` sets
`is_active=false` on every session of the user. -/
def invalidate_all_sessions (sessions : List UserSession) (uid : String) : List UserSession :=
  sessions.map (fun s =>
    if s.user_id == uid then { s with is_active := false } else s)

/-- Modelled from the spec: `user.get_session(session_id)` is called by
`refresh_token` but no such method is defined under the source tree.
Spec §4.4: `get(session_id)` must check `is_active && expires_at > now`,
else behave as not-found; as a method of the user it searches that user's
sessions. -/
def user_get_session (sessions : List UserSession) (uid : String) (target : JVal)
    (now : Int) : Option UserSession :=
  sessions.find? (fun s =>
    s.user_id == uid && JVal.s s.session_id == target && s.is_active &&
      decide (now < s.expires_at))

/- Authentication service layer (app/services/auth.py). -/

/-- One entry of `AuthenticationService._active_tokens` (the in-memory
token-tracking / blacklist registry).  A freshly tracked entry has no
`blacklisted` key, i.e. `blacklisted = false` here. -/
structure TokenInfo where
  user_id : String
  session_id : JVal
  created_at : Int
  ip_address : String
  user_agent : String
  blacklisted : Bool
  blacklisted_at : Option Int
deriving DecidableEq, Repr

/-- The mutable state the service operates on: the user repository rows,
the session rows, the login-log rows and the `_active_tokens` dict
(insertion-ordered association list keyed by the token). -/
structure AuthState where
  users : List DBUser
  sessions : List UserSession
  loginLogs : List LoginLog
  activeTokens : List (JWT × TokenInfo)
deriving DecidableEq, Repr

/-- `token in self._active_tokens` lookup. -/
def lookupTokenInfo (ats : List (JWT × TokenInfo)) (t : JWT) : Option TokenInfo :=
  (ats.find? (fun p => p.1 == t)).map (fun p => p.2)

/-- `self._active_tokens[token] = {...}`: replace if present, else append. -/
def insertToken (ats : List (JWT × TokenInfo)) (t : JWT) (info : TokenInfo) :
    List (JWT × TokenInfo) :=
  if (ats.find? (fun p => p.1 == t)).isSome then
    ats.map (fun p => if p.1 == t then (t, info) else p)
  else ats ++ [(t, info)]

/-- `token in self._active_tokens and self._active_tokens[token].get("blacklisted")`. -/
def isBlacklisted (ats : List (JWT × TokenInfo)) (t : JWT) : Bool :=
  match lookupTokenInfo ats t with
  | some info => info.blacklisted
  | none => false

structure LoginRequest where
  username : String
  password : String
  ip_address : String
  user_agent : String
  csrf_token : Option String
deriving DecidableEq, Repr

structure UserInfo where
  id : String
  username : String
  email : String
  role : String
  permissions : List String
  last_login : Option Int
  status : String
deriving DecidableEq, Repr

structure LoginResponse where
  success : Bool
  access_token : Option JWT
  refresh_token : Option JWT
  user_info : Option UserInfo
  session_id : Option String
  csrf_token : Option String
  error_message : Option String
  expires_in : Option Int
deriving DecidableEq, Repr

structure TokenValidationResult where
  valid : Bool
  user : Option DBUser
  session_id : Option JVal
  error_message : Option String
  payload : Option (List (String × JVal))
deriving DecidableEq, Repr

structure RefreshTokenRequest where
  refresh_token : JWT
  ip_address : String
  user_agent : String
deriving DecidableEq, Repr

structure RefreshTokenResponse where
  success : Bool
  access_token : Option JWT
  refresh_token : Option JWT
  expires_in : Option Int
  error_message : Option String
deriving DecidableEq, Repr

/-- `payload["sub"]` followed by `get_user_by_id`: a missing `sub` key
raises `KeyError`, caught by the outer handler; a present value is compared
against the string `id` column. -/
def findUserBySubClaim (users : List DBUser) (sv : JVal) : Option DBUser :=
  match sv with
  | JVal.s uid => users.find? (fun u => u.id == uid)
  | _ => none

/-- The failure result of the outer `except Exception` handler of
`validate_token`. -/
def tvFail (msg : String) : TokenValidationResult :=
  { valid := false, user := none, session_id := none,
    error_message := some msg, payload := none }

/-- `AuthenticationService.login`.  Fresh uuids / random CSRF value are the
`logId rowId sid csrf` parameters. -/
def login (st : AuthState) (req : LoginRequest) (now : Int)
    (logId rowId sid csrf : String) : LoginResponse × AuthState :=
  let ar := authenticate_user st.users req.username req.password
    req.ip_address req.user_agent now logId
  let st1 : AuthState := { st with loginLogs := st.loginLogs ++ [ar.2] }
  match ar.1 with
  | none =>
    ({ success := false, access_token := none, refresh_token := none,
       user_info := none, session_id := none, csrf_token := none,
       error_message := some "Authentication failed", expires_in := none }, st1)
  | some user =>
    let st2 : AuthState :=
      { st1 with users := st1.users.map (fun u => if u.id == user.id then user else u) }
    let cs := create_session st2.sessions user.id req.ip_address req.user_agent now rowId sid
    let sess := cs.1
    let token_data : List (String × JVal) :=
      [("sub", JVal.s user.id), ("username", JVal.s user.username),
       ("email", JVal.s user.email), ("role", JVal.s user.role),
       ("permissions", JVal.l user.permissions),
       ("session_id", JVal.s sess.session_id)]
    let access := create_access_token token_data now
    let refresh := create_refresh_token
      [("sub", JVal.s user.id), ("session_id", JVal.s sess.session_id)] now
    let sessions2 := updateSessionRow cs.2 { sess with csrf_token := some csrf }
    let ats := insertToken st2.activeTokens access
      { user_id := user.id, session_id := JVal.s sess.session_id,
        created_at := now, ip_address := req.ip_address,
        user_agent := req.user_agent, blacklisted := false, blacklisted_at := none }
    let uinfo : UserInfo :=
      { id := user.id, username := user.username, email := user.email,
        role := user.role, permissions := user.permissions,
        last_login := user.last_login, status := user.status }
    ({ success := true, access_token := some access, refresh_token := some refresh,
       user_info := some uinfo, session_id := some sess.session_id,
       csrf_token := some csrf, error_message := none,
       expires_in := some (access_token_expire_minutes * 60) },
     { st2 with sessions := sessions2, activeTokens := ats })

/-- Python truthiness of an optional string (`if not csrf_token:` etc.). -/
def optStrTruthy : Option String → Bool
  | some s => s ≠ ""
  | none => false

/-- `self.user_repo.get_session(session_id)` called with the raw payload
claim value: the `session_id` column is a string, so a non-string claim
matches no row. -/
def get_session_by_claim (sessions : List UserSession) (v : JVal) (now : Int) :
    Option UserSession :=
  match v with
  | JVal.s sid => get_session sessions sid now
  | _ => none

/-- `AuthenticationService.validate_token`.  Returns the result together
with the possibly mutated state (the session-activity touch). -/
def validate_token (st : AuthState) (token : JWT) (require_csrf : Bool)
    (csrf_tok : Option String) (now : Int) : TokenValidationResult × AuthState :=
  if isBlacklisted st.activeTokens token then
    (tvFail "Token has been revoked", st)
  else
    match verify_token token "access" now with
    | none => (tvFail "Invalid or expired token", st)
    | some payload =>
      match lookupKey payload "sub" with
      | none => (tvFail "Token validation failed: KeyError", st)
      | some sv =>
        match findUserBySubClaim st.users sv with
        | none => (tvFail "User not found", st)
        | some user =>
          let cl := user.can_login now
          if !cl.1 then (tvFail cl.2, st)
          else
            let sidv := lookupKey payload "session_id"
            match sidv with
            | some v =>
              if jvTruthy v then
                match get_session_by_claim st.sessions v now with
                | none => (tvFail "Session is invalid or expired", st)
                | some sess =>
                  if !sess.is_active then (tvFail "Session is invalid or expired", st)
                  else
                    let sess1 := { sess with last_activity := now }
                    let st1 := { st with sessions := updateSessionRow st.sessions sess1 }
                    if require_csrf then
                      if !(optStrTruthy csrf_tok) || !(optStrTruthy sess.csrf_token) then
                        (tvFail "CSRF token required", st1)
                      else if !(verify_csrf_token (csrf_tok.getD "") (sess.csrf_token.getD "")) then
                        (tvFail "Invalid CSRF token", st1)
                      else
                        ({ valid := true, user := some user, session_id := sidv,
                           error_message := none, payload := some payload }, st1)
                    else
                      ({ valid := true, user := some user, session_id := sidv,
                         error_message := none, payload := some payload }, st1)
              else
                ({ valid := true, user := some user, session_id := sidv,
                   error_message := none, payload := some payload }, st)
            | none =>
              ({ valid := true, user := some user, session_id := none,
                 error_message := none, payload := some payload }, st)

/-- The failure result of `refresh_token`. -/
def rtFail (msg : String) : RefreshTokenResponse :=
  { success := false, access_token := none, refresh_token := none,
    expires_in := none, error_message := some msg }

/-- `AuthenticationService.refresh_token`.  The old refresh token is only
verified; no blacklist check is made for it and it is never invalidated —
only the freshly minted access token is tracked. -/
def refresh_token (st : AuthState) (req : RefreshTokenRequest) (now : Int) :
    RefreshTokenResponse × AuthState :=
  match verify_token req.refresh_token "refresh" now with
  | none => (rtFail "Invalid or expired refresh token", st)
  | some payload =>
    match lookupKey payload "sub" with
    | none => (rtFail "Token refresh failed: KeyError", st)
    | some sv =>
      match findUserBySubClaim st.users sv with
      | none => (rtFail "User not found", st)
      | some user =>
        let cl := user.can_login now
        if !cl.1 then (rtFail cl.2, st)
        else
          let sidv := lookupKey payload "session_id"
          let sessStep : Option (Option UserSession) :=
            match sidv with
            | some v =>
              if jvTruthy v then
                match user_get_session st.sessions user.id v now with
                | none => none
                | some sess => some (some sess)
              else some none
            | none => some none
          match sessStep with
          | none => (rtFail "Session is invalid or expired", st)
          | some sessOpt =>
            let st1 :=
              match sessOpt with
              | some sess =>
                let sess1 := { sess with
                  last_activity := now,
                  ip_address := req.ip_address,
                  user_agent := req.user_agent }
                { st with sessions := updateSessionRow st.sessions sess1 }
              | none => st
            let sidRaw : JVal := (sidv.getD JVal.nullv)
            let token_data : List (String × JVal) :=
              [("sub", JVal.s user.id), ("username", JVal.s user.username),
               ("email", JVal.s user.email), ("role", JVal.s user.role),
               ("permissions", JVal.l user.permissions),
               ("session_id", sidRaw)]
            let newAccess := create_access_token token_data now
            let newRefresh := create_refresh_token
              [("sub", JVal.s user.id), ("session_id", sidRaw)] now
            let ats := insertToken st1.activeTokens newAccess
              { user_id := user.id, session_id := sidRaw, created_at := now,
                ip_address := req.ip_address, user_agent := req.user_agent,
                blacklisted := false, blacklisted_at := none }
            ({ success := true, access_token := some newAccess,
               refresh_token := some newRefresh,
               expires_in := some (access_token_expire_minutes * 60),
               error_message := none },
             { st1 with activeTokens := ats })

/-- `self._active_tokens[token]["blacklisted"] = True` guarded by the
membership test. -/
def blacklistOne (ats : List (JWT × TokenInfo)) (t : JWT) (now : Int) :
    List (JWT × TokenInfo) :=
  if (ats.find? (fun p => p.1 == t)).isSome then
    ats.map (fun p =>
      if p.1 == t then (p.1, { p.2 with blacklisted := true, blacklisted_at := some now })
      else p)
  else ats

/-- `AuthenticationService.logout`. -/
def logout (st : AuthState) (token : JWT) (session_id : Option String)
    (now : Int) : Bool × AuthState :=
  let vr := validate_token st token false none now
  if !vr.1.valid then (false, vr.2)
  else
    let target : Option JVal :=
      match session_id with
      | some s => if s ≠ "" then some (JVal.s s) else vr.1.session_id
      | none => vr.1.session_id
    let st2 : AuthState :=
      match target with
      | some tv =>
        if jvTruthy tv then
          { vr.2 with sessions := invalidate_session vr.2.sessions tv }
        else vr.2
      | none => vr.2
    (true, { st2 with activeTokens := blacklistOne st2.activeTokens token now })

/-- The blacklist-all loop of `logout_all_sessions`: every tracked,
not-yet-blacklisted entry of the user is marked blacklisted. -/
def blacklist_all_for_user (ats : List (JWT × TokenInfo)) (uid : String)
    (now : Int) : List (JWT × TokenInfo) :=
  ats.map (fun p =>
    if p.2.user_id == uid && !p.2.blacklisted then
      (p.1, { p.2 with blacklisted := true, blacklisted_at := some now })
    else p)

/-- `AuthenticationService.logout_all_sessions`. -/
def logout_all_sessions (st : AuthState) (uid : String) (now : Int) :
    Bool × AuthState :=
  match st.users.find? (fun u => u.id == uid) with
  | none => (false, st)
  | some _ =>
    let sessions1 := invalidate_all_sessions st.sessions uid
    let ats := blacklist_all_for_user st.activeTokens uid now
    (true, { st with sessions := sessions1, activeTokens := ats })

/-- `AuthenticationService.change_password`.  The fresh random salt of the
re-hash is the `saltFresh` parameter. -/
def change_password (st : AuthState) (uid old_password new_password : String)
    (now : Int) (saltFresh : String) : (Bool × String) × AuthState :=
  match st.users.find? (fun u => u.id == uid) with
  | none => ((false, "User not found"), st)
  | some user =>
    if !(verify_password_pbkdf2 old_password user.password_hash user.salt) then
      ((false, "Current password is incorrect"), st)
    else
      let vs := validate_password_strength new_password
      if !vs.1 then ((false, joinSemicolon vs.2), st)
      else
        let hp := hash_password_pbkdf2 new_password saltFresh
        let user1 := { user with
          password_hash := hp.1, salt := hp.2,
          password_changed_at := some now }
        let sessions1 := invalidate_all_sessions st.sessions user.id
        ((true, "Password changed successfully"),
         { st with
           users := st.users.map (fun u => if u.id == user.id then user1 else u),
           sessions := sessions1 })

/- Audit & anomaly detection (app/services/audit.py). -/

/-- `AuditEventType` (closed enum of the source). -/
inductive AuditEventType where
  | login_success | login_failed | logout_done | token_refresh
  | password_change | account_locked | account_unlocked
  | access_granted | access_denied | permission_escalation
  | data_access | data_modification | data_deletion | data_export
  | csrf_attack_detected | rate_limit_exceeded | suspicious_activity
  | security_violation
  | system_start | system_shutdown | configuration_change | error_occurred
deriving DecidableEq, Repr

/-- `AuditSeverity`. -/
inductive AuditSeverity where
  | low | medium | high | critical
deriving DecidableEq, Repr

/-- `AuditEvent` record; the uuid is derived from the logger's fresh-id
counter (see `AuditLogger.nextId`). -/
structure AuditEvent where
  id : String
  timestamp : Int
  event_type : AuditEventType
  severity : AuditSeverity
  user_id : Option String
  username : Option String
  ip_address : String
  user_agent : String
  resource : Option String
  action : String
  result : String
  details : List (String × JVal)
  session_id : Option String
deriving DecidableEq, Repr

/-- `AuditLogger` in-memory state: the append-only event list and a
counter modelling uuid freshness.  Persistence (`_save_events`) is an
external sink and carries no further state. -/
structure AuditLogger where
  events : List AuditEvent
  nextId : Nat
deriving DecidableEq, Repr

/-- `self.failed_login_threshold`. -/
def failed_login_threshold : Nat := 5

/-- The backward scan of `_get_recent_events_by_ip`, applied to the
reversed event list: stop at the first event older than the cutoff,
collect events matching the ip and type. -/
def scanRecentRev (ip : String) (etype : AuditEventType) (cutoff : Int) :
    List AuditEvent → List AuditEvent
  | [] => []
  | e :: rest =>
    if e.timestamp < cutoff then []
    else if e.ip_address == ip && e.event_type == etype then
      e :: scanRecentRev ip etype cutoff rest
    else scanRecentRev ip etype cutoff rest

/-- `AuditLogger._get_recent_events_by_ip`. -/
def get_recent_events_by_ip (l : AuditLogger) (ip : String)
    (etype : AuditEventType) (minutes : Int) (now : Int) : List AuditEvent :=
  scanRecentRev ip etype (now - minutes * 60) l.events.reverse

/-- Append one event and advance the uuid counter. -/
def appendEvent (l : AuditLogger) (e : AuditEvent) : AuditLogger :=
  { events := l.events ++ [e], nextId := l.nextId + 1 }

/-- Build the event record of `log_event` (uuid := the counter rendered). -/
def mkAuditEvent (freshId : Nat) (now : Int) (etype : AuditEventType)
    (sev : AuditSeverity) (action result ip ua : String)
    (uid uname res : Option String) (details : List (String × JVal))
    (sid : Option String) : AuditEvent :=
  { id := toString freshId, timestamp := now, event_type := etype,
    severity := sev, user_id := uid, username := uname, ip_address := ip,
    user_agent := ua, resource := res, action := action, result := result,
    details := details, session_id := sid }

/-- `AuditLogger._analyze_security_patterns`, run after the append.  The
nested `log_event` call that emits the derived `suspicious_activity` event
is unfolded to a plain append: its own pattern analysis is a no-op because
`suspicious_activity ≠ login_failed`. -/
def analyze_security_patterns (l : AuditLogger) (e : AuditEvent) (now : Int) :
    AuditLogger :=
  if e.event_type == AuditEventType.login_failed then
    let recent := get_recent_events_by_ip l e.ip_address
      AuditEventType.login_failed 30 now
    if failed_login_threshold ≤ recent.length then
      appendEvent l (mkAuditEvent l.nextId now AuditEventType.suspicious_activity
        AuditSeverity.high "pattern_analysis" "detected" e.ip_address e.user_agent
        none none none
        [("pattern_type", JVal.s "multiple_failed_logins"),
         ("failure_count", JVal.n recent.length),
         ("time_window_minutes", JVal.n 30)] none)
    else l
  else l

/-- `AuditLogger.log_event`: append, persist (external), then analyze. -/
def log_event (l : AuditLogger) (now : Int) (etype : AuditEventType)
    (sev : AuditSeverity) (action result ip ua : String)
    (uid uname res : Option String) (details : List (String × JVal))
    (sid : Option String) : AuditLogger :=
  let e := mkAuditEvent l.nextId now etype sev action result ip ua uid uname res
    details sid
  analyze_security_patterns (appendEvent l e) e now

/-- `AuditLogger.log_login_failed`. -/
def log_login_failed (l : AuditLogger) (now : Int) (username ip ua reason : String) :
    AuditLogger :=
  log_event l now AuditEventType.login_failed AuditSeverity.medium
    "user_login" "failed" ip ua none (some username) none
    [("failure_reason", JVal.s reason), ("timestamp", JVal.n now)] none

/-- Number of `suspicious_activity` events in the log. -/
def countSuspicious (l : AuditLogger) : Nat :=
  (l.events.filter (fun e => e.event_type == AuditEventType.suspicious_activity)).length

/-- Number of `suspicious_activity` events at `high` severity. -/
def countSuspiciousHigh (l : AuditLogger) : Nat :=
  (l.events.filter (fun e =>
    e.event_type == AuditEventType.suspicious_activity &&
      e.severity == AuditSeverity.high)).length

/- Helper lemmas about the claim-list dictionary operations. -/

theorem lookupKey_none_any_false (d : List (String × JVal)) (k : String)
    (h : lookupKey d k = none) : d.any (fun p => p.1 == k) = false := by
  induction d with
  | nil => rfl
  | cons p rest ih =>
    by_cases hk : p.1 == k
    · simp [lookupKey, hk] at h
    · simp only [lookupKey, hk, if_false] at h
      simp [List.any_cons, hk, ih h]

theorem setKey_of_none (d : List (String × JVal)) (k : String) (v : JVal)
    (h : lookupKey d k = none) : setKey d k v = d ++ [(k, v)] := by
  unfold setKey
  rw [lookupKey_none_any_false d k h]
  rfl

theorem lookupKey_append_of_none (d e : List (String × JVal)) (k : String)
    (h : lookupKey d k = none) : lookupKey (d ++ e) k = lookupKey e k := by
  induction d with
  | nil => rfl
  | cons p rest ih =>
    by_cases hk : p.1 == k
    · simp [lookupKey, hk] at h
    · simp only [lookupKey, hk, if_false] at h
      simp only [List.cons_append, lookupKey, hk, if_false]
      exact ih h

/- Claim C1. -/

/-- An account that is active in every respect except that it is locked
until time 1000000. -/
def lockedUser : DBUser :=
  { id := "u1", username := "alice", email := "alice@example.com",
    password_hash := bcryptHash "P@ssw0rd1", salt := "salt", role := "user",
    permissions := [], status := "active", is_active := true,
    last_login := none, login_attempts := 0, locked_until := some 1000000,
    password_changed_at := none }

/-- C1: the claimed invariant — authentication succeeds only when
`is_active && status == active && now >= locked_until` — does not hold:
at time 100, while `can_login` (the lockout predicate used on the
validate/refresh paths) rejects the locked account, `authenticate_user`
returns the user and records a successful login, because it never
consults `locked_until`. -/
theorem authenticate_user_ignores_lockout :
    (lockedUser.can_login 100).1 = false ∧
    ((authenticate_user [lockedUser] "alice" "P@ssw0rd1" "10.0.0.1" "ua"
        100 "log1").1).isSome = true ∧
    (authenticate_user [lockedUser] "alice" "P@ssw0rd1" "10.0.0.1" "ua"
        100 "log1").2.success = true := by
  decide

/- Claim C10. -/

/-- C10: any two failed login attempts — whatever the cause (unknown
username, disabled/suspended account, wrong password) — produce identical
responses carrying the generic message "Authentication failed", so the
caller cannot distinguish the causes; the recorded login log keeps the
specific reason (the three causes are pinned to their distinct recorded
reasons by the last three conjuncts). -/
theorem login_failure_message_uniform
    (st1 st2 : AuthState) (req1 req2 : LoginRequest) (now : Int)
    (logId rowId sid csrf : String)
    (h1 : (authenticate_user st1.users req1.username req1.password
      req1.ip_address req1.user_agent now logId).1 = none)
    (h2 : (authenticate_user st2.users req2.username req2.password
      req2.ip_address req2.user_agent now logId).1 = none) :
    (login st1 req1 now logId rowId sid csrf).1 =
      (login st2 req2 now logId rowId sid csrf).1 ∧
    (login st1 req1 now logId rowId sid csrf).1.error_message =
      some "Authentication failed" ∧
    (login st1 req1 now logId rowId sid csrf).2.loginLogs =
      st1.loginLogs ++ [(authenticate_user st1.users req1.username req1.password
        req1.ip_address req1.user_agent now logId).2] ∧
    (st1.users.find? (fun u => u.username == req1.username) = none →
      (authenticate_user st1.users req1.username req1.password
        req1.ip_address req1.user_agent now logId).2.failure_reason =
          some "用户不存在") ∧
    (∀ u, st1.users.find? (fun x => x.username == req1.username) = some u →
      (!u.is_active || !(u.status == "active")) = true →
      (authenticate_user st1.users req1.username req1.password
        req1.ip_address req1.user_agent now logId).2.failure_reason =
          some "用户已被禁用") ∧
    (∀ u, st1.users.find? (fun x => x.username == req1.username) = some u →
      (!u.is_active || !(u.status == "active")) = false →
      bcryptVerify req1.password u.password_hash = false →
      (authenticate_user st1.users req1.username req1.password
        req1.ip_address req1.user_agent now logId).2.failure_reason =
          some "密码错误") := by
  refine ⟨?_, ?_, ?_, ?_, ?_, ?_⟩
  · simp [login, h1, h2]
  · simp [login, h1]
  · simp [login, h1]
  · intro hf
    simp [authenticate_user, hf]
  · intro u hf hdis
    simp [authenticate_user, hf, hdis]
  · intro u hf hdis hpw
    simp [authenticate_user, hf, hdis, hpw]

def c10UserBob : DBUser :=
  { id := "u2", username := "bob", email := "bob@example.com",
    password_hash := bcryptHash "S3cret!A", salt := "s", role := "user",
    permissions := [], status := "active", is_active := true,
    last_login := none, login_attempts := 0, locked_until := none,
    password_changed_at := none }

def c10State1 : AuthState :=
  { users := [], sessions := [], loginLogs := [], activeTokens := [] }

def c10State2 : AuthState :=
  { users := [c10UserBob], sessions := [], loginLogs := [], activeTokens := [] }

def c10Req1 : LoginRequest :=
  { username := "ghost", password := "whatever", ip_address := "10.0.0.2",
    user_agent := "ua", csrf_token := none }

def c10Req2 : LoginRequest :=
  { username := "bob", password := "wrong-password", ip_address := "10.0.0.2",
    user_agent := "ua", csrf_token := none }

/-- Witness for C10: an unknown-user failure and a wrong-password failure
return the same response with the generic message. -/
theorem login_failure_message_uniform_witness :
    (login c10State1 c10Req1 0 "lg" "rw" "sd" "cf").1 =
      (login c10State2 c10Req2 0 "lg" "rw" "sd" "cf").1 ∧
    (login c10State1 c10Req1 0 "lg" "rw" "sd" "cf").1.error_message =
      some "Authentication failed" :=
  ⟨(login_failure_message_uniform c10State1 c10State2 c10Req1 c10Req2 0
      "lg" "rw" "sd" "cf" (by decide) (by decide)).1,
   (login_failure_message_uniform c10State1 c10State2 c10Req1 c10Req2 0
      "lg" "rw" "sd" "cf" (by decide) (by decide)).2.1⟩

/- Claim C9. -/

theorem foldl_join_prefix (tail : List String) :
    ∀ acc : String, ∃ r : String,
      tail.foldl (fun a x => a ++ "; " ++ x) acc = acc ++ r := by
  induction tail with
  | nil => intro acc; exact ⟨"", by simp⟩
  | cons b bs ih =>
    intro acc
    obtain ⟨r1, hr1⟩ := ih (acc ++ "; " ++ b)
    refine ⟨"; " ++ b ++ r1, ?_⟩
    simp only [List.foldl_cons]
    rw [hr1]
    simp [String.append_assoc]

theorem joinSemicolon_cons_prefix (x : String) (tail : List String) :
    ∃ r : String, joinSemicolon (x :: tail) = x ++ r := by
  obtain ⟨r, hr⟩ := foldl_join_prefix tail x
  exact ⟨r, hr⟩

theorem validate_password_strength_short (p : String) (h : p.length < 8) :
    validate_password_strength p =
      (false, "Password must be at least 8 characters long" ::
        (validate_password_strength p).2.tail) := by
  unfold validate_password_strength
  simp [h]

/-- C9: with a correct old password and a new password shorter than 8
characters, `change_password` reports failure with a message stating the
at-least-8-characters requirement, and returns the state unchanged: no
session is revoked and the stored password hash and salt stay as they
were. -/
theorem weak_new_password_rejected
    (st : AuthState) (uid old_password new_password : String) (now : Int)
    (saltFresh : String) (user : DBUser)
    (hu : st.users.find? (fun u => u.id == uid) = some user)
    (hpw : verify_password_pbkdf2 old_password user.password_hash user.salt = true)
    (hlen : new_password.length < 8) :
    ∃ r : String, change_password st uid old_password new_password now saltFresh =
      ((false, "Password must be at least 8 characters long" ++ r), st) := by
  obtain ⟨tl, htl⟩ : ∃ tl, validate_password_strength new_password =
      (false, "Password must be at least 8 characters long" :: tl) :=
    ⟨_, validate_password_strength_short new_password hlen⟩
  obtain ⟨r, hr⟩ := joinSemicolon_cons_prefix
    "Password must be at least 8 characters long" tl
  refine ⟨r, ?_⟩
  simp [change_password, hu, hpw, htl, hr]

def c9User : DBUser :=
  { id := "u9", username := "carol", email := "carol@example.com",
    password_hash := pbkdf2Hash "OldP@ss1" "os", salt := "os", role := "user",
    permissions := [], status := "active", is_active := true,
    last_login := none, login_attempts := 0, locked_until := none,
    password_changed_at := none }

def c9Session : UserSession :=
  { id := "r9", user_id := "u9", session_id := "sid9", ip_address := "ip",
    user_agent := "ua", last_activity := 0, is_active := true,
    csrf_token := some "c9", expires_at := 100000, created_at := 0 }

def c9State : AuthState :=
  { users := [c9User], sessions := [c9Session], loginLogs := [],
    activeTokens := [] }

/-- Witness for C9: correct old password, new password "weak". -/
theorem weak_new_password_rejected_witness :
    ∃ r : String, change_password c9State "u9" "OldP@ss1" "weak" 0 "ns" =
      ((false, "Password must be at least 8 characters long" ++ r), c9State) :=
  weak_new_password_rejected c9State "u9" "OldP@ss1" "weak" 0 "ns" c9User
    (by decide) (by decide) (by decide)

/- Claim C3. -/

/-- The standard fields `create_access_token` injects. -/
def stdAccessFields (now : Int) : List (String × JVal) :=
  [("exp", JVal.n (now + access_token_expire_minutes * 60)),
   ("iat", JVal.n now), ("type", JVal.s "access"),
   ("iss", JVal.s "URAK-AUTH-SERVICE"), ("aud", JVal.s "URAK-USERS")]

theorem create_access_token_payload (data : List (String × JVal)) (now : Int)
    (hexp : lookupKey data "exp" = none) (hiat : lookupKey data "iat" = none)
    (htype : lookupKey data "type" = none) (hiss : lookupKey data "iss" = none)
    (haud : lookupKey data "aud" = none) :
    create_access_token data now =
      { payload := data ++ stdAccessFields now, signKey := jwt_secret_key } := by
  have h1 : lookupKey (data ++ [("exp", JVal.n (now + access_token_expire_minutes * 60))]) "iat" = none := by
    rw [lookupKey_append_of_none _ _ _ hiat]; rfl
  have h2 : lookupKey ((data ++ [("exp", JVal.n (now + access_token_expire_minutes * 60))]) ++ [("iat", JVal.n now)]) "type" = none := by
    rw [lookupKey_append_of_none _ _ _ (by rw [lookupKey_append_of_none _ _ _ htype]; rfl)]; rfl
  have h3 : lookupKey (((data ++ [("exp", JVal.n (now + access_token_expire_minutes * 60))]) ++ [("iat", JVal.n now)]) ++ [("type", JVal.s "access")]) "iss" = none := by
    rw [lookupKey_append_of_none _ _ _ (by rw [lookupKey_append_of_none _ _ _ (by rw [lookupKey_append_of_none _ _ _ hiss]; rfl)]; rfl)]; rfl
  have h4 : lookupKey ((((data ++ [("exp", JVal.n (now + access_token_expire_minutes * 60))]) ++ [("iat", JVal.n now)]) ++ [("type", JVal.s "access")]) ++ [("iss", JVal.s "URAK-AUTH-SERVICE")]) "aud" = none := by
    rw [lookupKey_append_of_none _ _ _ (by rw [lookupKey_append_of_none _ _ _ (by rw [lookupKey_append_of_none _ _ _ (by rw [lookupKey_append_of_none _ _ _ haud]; rfl)]; rfl)]; rfl)]; rfl
  unfold create_access_token
  dsimp only
  rw [setKey_of_none _ _ _ hexp, setKey_of_none _ _ _ h1,
      setKey_of_none _ _ _ h2, setKey_of_none _ _ _ h3,
      setKey_of_none _ _ _ h4]
  simp [stdAccessFields]

/-- C3: round-trip — verifying (before expiry) an access token minted by
`create_access_token` from claims whose keys avoid the injected standard
fields succeeds with expected type "access" and returns exactly the input
claims followed by the injected `exp`, `iat`, `type`, `iss`, `aud`. -/
theorem access_token_round_trip (data : List (String × JVal)) (now tv : Int)
    (hexp : lookupKey data "exp" = none) (hiat : lookupKey data "iat" = none)
    (htype : lookupKey data "type" = none) (hiss : lookupKey data "iss" = none)
    (haud : lookupKey data "aud" = none)
    (htime : tv < now + access_token_expire_minutes * 60) :
    verify_token (create_access_token data now) "access" tv =
      some (data ++ stdAccessFields now) := by
  rw [create_access_token_payload data now hexp hiat htype hiss haud]
  have haud2 : lookupKey (data ++ stdAccessFields now) "aud" =
      some (JVal.s "URAK-USERS") := by
    rw [lookupKey_append_of_none _ _ _ haud]; rfl
  have hiss2 : lookupKey (data ++ stdAccessFields now) "iss" =
      some (JVal.s "URAK-AUTH-SERVICE") := by
    rw [lookupKey_append_of_none _ _ _ hiss]; rfl
  have hexp2 : lookupKey (data ++ stdAccessFields now) "exp" =
      some (JVal.n (now + access_token_expire_minutes * 60)) := by
    rw [lookupKey_append_of_none _ _ _ hexp]; rfl
  have htype2 : lookupKey (data ++ stdAccessFields now) "type" =
      some (JVal.s "access") := by
    rw [lookupKey_append_of_none _ _ _ htype]; rfl
  unfold verify_token audClaimOk issClaimOk expClaimExpired typeClaimIs
  rw [haud2, hiss2, hexp2, htype2]
  simp [not_le.mpr htime]

/-- Witness for C3 at concrete claims and times. -/
theorem access_token_round_trip_witness :
    verify_token (create_access_token [("sub", JVal.s "alice")] 0) "access" 0 =
      some ([("sub", JVal.s "alice")] ++ stdAccessFields 0) :=
  access_token_round_trip [("sub", JVal.s "alice")] 0 0 (by decide) (by decide)
    (by decide) (by decide) (by decide) (by decide)

/- Claim C5. -/

/-- C5: when the verified access-token payload carries no `session_id`
claim, `validate_token` with `require_csrf = true` returns `valid = true`
for any supplied CSRF value, performs no CSRF comparison and leaves the
state (in particular every session) untouched. -/
theorem validate_no_session_claim_skips_csrf
    (st : AuthState) (token : JWT) (csrf_tok : Option String) (now : Int)
    (payload : List (String × JVal)) (sv : JVal) (user : DBUser)
    (hbl : isBlacklisted st.activeTokens token = false)
    (hv : verify_token token "access" now = some payload)
    (hsub : lookupKey payload "sub" = some sv)
    (hu : findUserBySubClaim st.users sv = some user)
    (hcl : (user.can_login now).1 = true)
    (hsid : lookupKey payload "session_id" = none) :
    validate_token st token true csrf_tok now =
      ({ valid := true, user := some user, session_id := none,
         error_message := none, payload := some payload }, st) := by
  simp [validate_token, hbl, hv, hsub, hu, hcl, hsid]

def c5User : DBUser :=
  { id := "u5", username := "dave", email := "dave@example.com",
    password_hash := bcryptHash "Pw!23456", salt := "s", role := "user",
    permissions := [], status := "active", is_active := true,
    last_login := none, login_attempts := 0, locked_until := none,
    password_changed_at := none }

def c5Session : UserSession :=
  { id := "r5", user_id := "u5", session_id := "sid5", ip_address := "ip",
    user_agent := "ua", last_activity := 0, is_active := true,
    csrf_token := some "c5", expires_at := 100000, created_at := 0 }

def c5State : AuthState :=
  { users := [c5User], sessions := [c5Session], loginLogs := [],
    activeTokens := [] }

def c5Token : JWT := create_access_token [("sub", JVal.s "u5")] 0

/-- Witness for C5: a session-less access token validates with
`require_csrf = true` and no CSRF value supplied. -/
theorem validate_no_session_claim_skips_csrf_witness :
    validate_token c5State c5Token true none 0 =
      ({ valid := true, user := some c5User, session_id := none,
         error_message := none,
         payload := some ([("sub", JVal.s "u5")] ++ stdAccessFields 0) },
       c5State) :=
  validate_no_session_claim_skips_csrf c5State c5Token none 0
    ([("sub", JVal.s "u5")] ++ stdAccessFields 0) (JVal.s "u5") c5User
    (by decide) (by decide) (by decide) (by decide) (by decide) (by decide)

/- Claim C7. -/

/-- C7: once a session's `expires_at` has passed, `get_session` behaves as
not-found even though the row is still stored, and `validate_token` of any
access token bound to that session (its payload carries the session id)
returns `valid = false`. -/
theorem expired_session_treated_absent
    (st : AuthState) (sid : String) (now : Int) (token : JWT)
    (require_csrf : Bool) (csrf_tok : Option String)
    (payload : List (String × JVal))
    (hexp : ∀ s ∈ st.sessions, s.session_id = sid → s.expires_at ≤ now)
    (hv : verify_token token "access" now = some payload)
    (hsid : lookupKey payload "session_id" = some (JVal.s sid))
    (hne : sid ≠ "") :
    get_session st.sessions sid now = none ∧
    (validate_token st token require_csrf csrf_tok now).1.valid = false := by
  have hget : get_session st.sessions sid now = none := by
    unfold get_session
    apply List.find?_eq_none.mpr
    intro s hs hp
    simp only [Bool.and_eq_true, beq_iff_eq, decide_eq_true_eq] at hp
    obtain ⟨⟨hsid2, _⟩, hlt⟩ := hp
    have := hexp s hs hsid2
    omega
  refine ⟨hget, ?_⟩
  cases hbl : isBlacklisted st.activeTokens token with
  | true => simp [validate_token, hbl, tvFail]
  | false =>
    cases hsub : lookupKey payload "sub" with
    | none => simp [validate_token, hbl, hv, hsub, tvFail]
    | some sv =>
      cases hu : findUserBySubClaim st.users sv with
      | none => simp [validate_token, hbl, hv, hsub, hu, tvFail]
      | some user =>
        cases hcl : (user.can_login now).1 with
        | false => simp [validate_token, hbl, hv, hsub, hu, hcl, tvFail]
        | true =>
          simp [validate_token, hbl, hv, hsub, hu, hcl, hsid, jvTruthy, hne,
                get_session_by_claim, hget, tvFail]

def c7User : DBUser :=
  { id := "u7", username := "erin", email := "erin@example.com",
    password_hash := bcryptHash "Pw!23456", salt := "s", role := "user",
    permissions := [], status := "active", is_active := true,
    last_login := none, login_attempts := 0, locked_until := none,
    password_changed_at := none }

/-- A session whose `expires_at` (50) is already in the past at time 100,
yet whose row still exists and is still marked active. -/
def c7Session : UserSession :=
  { id := "r7", user_id := "u7", session_id := "sid7", ip_address := "ip",
    user_agent := "ua", last_activity := 0, is_active := true,
    csrf_token := some "c7", expires_at := 50, created_at := 0 }

def c7State : AuthState :=
  { users := [c7User], sessions := [c7Session], loginLogs := [],
    activeTokens := [] }

def c7Token : JWT :=
  create_access_token [("sub", JVal.s "u7"), ("session_id", JVal.s "sid7")] 90

/-- Witness for C7: at time 100 the unswept expired session is absent and
the bound token no longer validates. -/
theorem expired_session_treated_absent_witness :
    get_session c7State.sessions "sid7" 100 = none ∧
    (validate_token c7State c7Token false none 100).1.valid = false :=
  expired_session_treated_absent c7State "sid7" 100 c7Token false none
    ([("sub", JVal.s "u7"), ("session_id", JVal.s "sid7")] ++ stdAccessFields 90)
    (by decide) (by decide) (by decide) (by decide)



/- Claim C6. -/

theorem lookupTokenInfo_map_keyfix (t : JWT) (f : JWT × TokenInfo → JWT × TokenInfo)
    (hf : ∀ p, (f p).1 = p.1) (ats : List (JWT × TokenInfo)) :
    lookupTokenInfo (ats.map f) t =
      Option.map (fun p => (f p).2) (ats.find? (fun p => p.1 == t)) := by
  induction ats with
  | nil => rfl
  | cons p rest ih =>
    unfold lookupTokenInfo at ih ⊢
    simp only [List.map_cons, List.find?_cons, hf p]
    cases hk : p.1 == t with
    | true => rfl
    | false => exact ih

theorem isBlacklisted_after_blacklist_all
    (ats : List (JWT × TokenInfo)) (uid : String) (now : Int) (t : JWT)
    (info : TokenInfo)
    (h : lookupTokenInfo ats t = some info) (huid : info.user_id = uid) :
    isBlacklisted (blacklist_all_for_user ats uid now) t = true := by
  have hf : ∀ p : JWT × TokenInfo,
      ((fun p : JWT × TokenInfo =>
        if p.2.user_id == uid && !p.2.blacklisted then
          (p.1, { p.2 with blacklisted := true, blacklisted_at := some now })
        else p) p).1 = p.1 := by
    intro p
    by_cases hc : (p.2.user_id == uid && !p.2.blacklisted) = true <;> simp [hc]
  obtain ⟨q, hq, hq2⟩ : ∃ q, ats.find? (fun p => p.1 == t) = some q ∧ q.2 = info := by
    unfold lookupTokenInfo at h
    cases hfind : ats.find? (fun p => p.1 == t) with
    | none => rw [hfind] at h; exact absurd h (by simp)
    | some q =>
      rw [hfind] at h
      have h2 : some q.2 = some info := h
      exact ⟨q, rfl, by injection h2⟩
  have hA : q.2.user_id = uid := by rw [hq2]; exact huid
  unfold isBlacklisted blacklist_all_for_user
  rw [lookupTokenInfo_map_keyfix t _ hf, hq]
  show ((if q.2.user_id == uid && !q.2.blacklisted then
      (q.1, { q.2 with blacklisted := true, blacklisted_at := some now })
    else q).2).blacklisted = true
  split
  · rfl
  · next hc =>
    simp only [Bool.and_eq_true, Bool.not_eq_true', beq_iff_eq, not_and] at hc
    cases hbq : q.2.blacklisted with
    | true => rfl
    | false => exact absurd hbq (hc hA)

/-- C6: after `logout_all_sessions(user_id)` succeeds, validating any
access token that was tracked for that user on this service instance fails
with "Token has been revoked". -/
theorem logout_all_revokes_tracked_tokens
    (st : AuthState) (uid : String) (now now2 : Int) (token : JWT)
    (info : TokenInfo) (require_csrf : Bool) (csrf_tok : Option String)
    (u : DBUser)
    (hu : st.users.find? (fun x => x.id == uid) = some u)
    (ht : lookupTokenInfo st.activeTokens token = some info)
    (huid : info.user_id = uid) :
    (logout_all_sessions st uid now).1 = true ∧
    (validate_token (logout_all_sessions st uid now).2 token require_csrf
      csrf_tok now2).1 = tvFail "Token has been revoked" := by
  have hbl := isBlacklisted_after_blacklist_all st.activeTokens uid now token
    info ht huid
  constructor
  · simp [logout_all_sessions, hu]
  · simp [validate_token, logout_all_sessions, hu, hbl]

def c6User : DBUser :=
  { id := "u6", username := "fred", email := "fred@example.com",
    password_hash := bcryptHash "Pw!23456", salt := "s", role := "user",
    permissions := [], status := "active", is_active := true,
    last_login := none, login_attempts := 0, locked_until := none,
    password_changed_at := none }

def c6Token : JWT :=
  create_access_token [("sub", JVal.s "u6"), ("session_id", JVal.s "sid6")] 0

def c6Info : TokenInfo :=
  { user_id := "u6", session_id := JVal.s "sid6", created_at := 0,
    ip_address := "ip", user_agent := "ua", blacklisted := false,
    blacklisted_at := none }

def c6Session : UserSession :=
  { id := "r6", user_id := "u6", session_id := "sid6", ip_address := "ip",
    user_agent := "ua", last_activity := 0, is_active := true,
    csrf_token := some "c6", expires_at := 100000, created_at := 0 }

def c6State : AuthState :=
  { users := [c6User], sessions := [c6Session], loginLogs := [],
    activeTokens := [(c6Token, c6Info)] }

/-- Witness for C6 on a concrete tracked token. -/
theorem logout_all_revokes_tracked_tokens_witness :
    (logout_all_sessions c6State "u6" 10).1 = true ∧
    (validate_token (logout_all_sessions c6State "u6" 10).2 c6Token false
      none 20).1 = tvFail "Token has been revoked" :=
  logout_all_revokes_tracked_tokens c6State "u6" 10 20 c6Token c6Info false
    none c6User (by decide) (by decide) (by decide)

/- Claim C8. -/

def c8User : DBUser :=
  { id := "u8", username := "gail", email := "gail@example.com",
    password_hash := bcryptHash "Pw!23456", salt := "s", role := "user",
    permissions := [], status := "active", is_active := true,
    last_login := none, login_attempts := 0, locked_until := none,
    password_changed_at := none }

def c8State : AuthState :=
  { users := [c8User], sessions := [], loginLogs := [], activeTokens := [] }

/-- A cryptographically valid access token that carries no `session_id`
claim and was never tracked in `_active_tokens`. -/
def c8Token : JWT := create_access_token [("sub", JVal.s "u8")] 0

/-- C8 counterexample: for this valid untracked, session-less access token
the first `logout` succeeds, yet the second `logout` with the same token
also returns `true` — not the failure the claim requires.  (The first call
had nothing to blacklist and no session to invalidate, so the token still
validates.) -/
theorem second_logout_succeeds_counterexample :
    (logout c8State c8Token none 0).1 = true ∧
    (logout (logout c8State c8Token none 0).2 c8Token none 0).1 = true := by
  decide

theorem validate_token_preserves_activeTokens (st : AuthState) (t : JWT)
    (rc : Bool) (ct : Option String) (now : Int) :
    ((validate_token st t rc ct now).2).activeTokens = st.activeTokens := by
  unfold validate_token
  repeat' (first | rfl | split | dsimp only)

theorem find?_pred_of_some {α : Type} (p : α → Bool) (l : List α) (a : α)
    (h : l.find? p = some a) : p a = true := by
  induction l with
  | nil => simp [List.find?] at h
  | cons x xs ih =>
    rw [List.find?_cons] at h
    cases hx : p x with
    | true => rw [hx] at h; injection h with h2; rw [← h2]; exact hx
    | false => rw [hx] at h; exact ih h

theorem isBlacklisted_blacklistOne (ats : List (JWT × TokenInfo)) (t : JWT)
    (now : Int) (h : (lookupTokenInfo ats t).isSome = true) :
    isBlacklisted (blacklistOne ats t now) t = true := by
  obtain ⟨q, hq⟩ : ∃ q, ats.find? (fun p => p.1 == t) = some q := by
    unfold lookupTokenInfo at h
    cases hfind : ats.find? (fun p => p.1 == t) with
    | none => rw [hfind] at h; simp at h
    | some q => exact ⟨q, rfl⟩
  have hqt0 := find?_pred_of_some _ _ _ hq
  have hqt : (q.1 == t) = true := hqt0
  have hf : ∀ p : JWT × TokenInfo,
      ((fun p : JWT × TokenInfo =>
        if p.1 == t then
          (p.1, { p.2 with blacklisted := true, blacklisted_at := some now })
        else p) p).1 = p.1 := by
    intro p
    by_cases hc : (p.1 == t) = true <;> simp [hc]
  have hsome : (ats.find? (fun p => p.1 == t)).isSome = true := by
    rw [hq]; rfl
  unfold blacklistOne
  rw [if_pos hsome]
  unfold isBlacklisted
  rw [lookupTokenInfo_map_keyfix t _ hf, hq]
  show ((if q.1 == t then
      (q.1, { q.2 with blacklisted := true, blacklisted_at := some now })
    else q).2).blacklisted = true
  simp [hqt]

/-- C8 (amended): for every access token tracked in `_active_tokens` —
which covers every token issued by `login` or `refresh_token` — a second
`logout` with the same token after a successful first one returns `false`
and leaves the state (sessions and token registry) exactly as the first
call left it. -/
theorem second_logout_fails_for_tracked
    (st : AuthState) (token : JWT) (now now2 : Int)
    (ht : (lookupTokenInfo st.activeTokens token).isSome = true)
    (h1 : (logout st token none now).1 = true) :
    logout (logout st token none now).2 token none now2 =
      (false, (logout st token none now).2) := by
  cases hv : (validate_token st token false none now).1.valid with
  | false => simp [logout, hv] at h1
  | true =>
    have hpres := validate_token_preserves_activeTokens st token false none now
    have hats : ((logout st token none now).2).activeTokens =
        blacklistOne st.activeTokens token now := by
      rw [← hpres]
      simp [logout, hv]
      repeat' split
      all_goals rfl
    have hbl2 : isBlacklisted ((logout st token none now).2).activeTokens
        token = true := by
      rw [hats]
      exact isBlacklisted_blacklistOne st.activeTokens token now ht
    set st2 := (logout st token none now).2 with hst2
    simp [logout, validate_token, hbl2, tvFail]

def c8bUser : DBUser :=
  { id := "u8b", username := "hank", email := "hank@example.com",
    password_hash := bcryptHash "Pw!23456", salt := "s", role := "user",
    permissions := [], status := "active", is_active := true,
    last_login := none, login_attempts := 0, locked_until := none,
    password_changed_at := none }

def c8bToken : JWT :=
  create_access_token [("sub", JVal.s "u8b"), ("session_id", JVal.s "sid8")] 0

def c8bInfo : TokenInfo :=
  { user_id := "u8b", session_id := JVal.s "sid8", created_at := 0,
    ip_address := "ip", user_agent := "ua", blacklisted := false,
    blacklisted_at := none }

def c8bSession : UserSession :=
  { id := "r8", user_id := "u8b", session_id := "sid8", ip_address := "ip",
    user_agent := "ua", last_activity := 0, is_active := true,
    csrf_token := some "c8", expires_at := 100000, created_at := 0 }

def c8bState : AuthState :=
  { users := [c8bUser], sessions := [c8bSession], loginLogs := [],
    activeTokens := [(c8bToken, c8bInfo)] }

/-- Witness for the amended C8 on a concrete tracked token. -/
theorem second_logout_fails_for_tracked_witness :
    logout (logout c8bState c8bToken none 10).2 c8bToken none 20 =
      (false, (logout c8bState c8bToken none 10).2) :=
  second_logout_fails_for_tracked c8bState c8bToken 10 20 (by decide) (by decide)

/- Claim C2. -/

def c2User : DBUser :=
  { id := "u2r", username := "ivy", email := "ivy@example.com",
    password_hash := bcryptHash "Pw!23456", salt := "s", role := "user",
    permissions := [], status := "active", is_active := true,
    last_login := none, login_attempts := 0, locked_until := none,
    password_changed_at := none }

def c2Session : UserSession :=
  { id := "r2", user_id := "u2r", session_id := "sid2", ip_address := "ip",
    user_agent := "ua", last_activity := 0, is_active := true,
    csrf_token := some "c2", expires_at := 1000000, created_at := 0 }

def c2Refresh : JWT :=
  create_refresh_token [("sub", JVal.s "u2r"), ("session_id", JVal.s "sid2")] 0

def c2State : AuthState :=
  { users := [c2User], sessions := [c2Session], loginLogs := [],
    activeTokens := [] }

def c2Req : RefreshTokenRequest :=
  { refresh_token := c2Refresh, ip_address := "ip2", user_agent := "ua2" }

/-- C2 evidence: a successful refresh does not blacklist or otherwise
invalidate the refresh token it consumed — the same refresh token,
presented a second time against the post-refresh state, succeeds again,
and the token registry holds no blacklist entry for it. -/
theorem refresh_token_replay_not_prevented :
    (refresh_token c2State c2Req 10).1.success = true ∧
    (refresh_token (refresh_token c2State c2Req 10).2 c2Req 20).1.success = true ∧
    isBlacklisted ((refresh_token c2State c2Req 10).2).activeTokens c2Refresh
      = false := by
  decide

/- Claim C4. -/

theorem scanRecentRev_all_match (ip : String) (ty : AuditEventType)
    (cutoff : Int) (xs rest : List AuditEvent)
    (h : ∀ e ∈ xs, e.ip_address = ip ∧ e.event_type = ty ∧ cutoff ≤ e.timestamp) :
    scanRecentRev ip ty cutoff (xs ++ rest) =
      xs ++ scanRecentRev ip ty cutoff rest := by
  induction xs with
  | nil => simp
  | cons e tail ih =>
    obtain ⟨hip, hty, hts⟩ := h e (by simp)
    have h2 : ∀ x ∈ tail, x.ip_address = ip ∧ x.event_type = ty ∧
        cutoff ≤ x.timestamp := fun x hx => h x (by simp [hx])
    have hc2 : (e.ip_address == ip && e.event_type == ty) = true := by
      simp [hip, hty]
    simp only [List.cons_append, scanRecentRev]
    rw [if_neg (not_lt.mpr hts), if_pos hc2]
    show e :: scanRecentRev ip ty cutoff (tail ++ rest) =
      e :: (tail ++ scanRecentRev ip ty cutoff rest)
    rw [ih h2]

theorem scanRecentRev_nil_of_out (ip : String) (ty : AuditEventType)
    (cutoff : Int) (xs : List AuditEvent)
    (h : ∀ e ∈ xs, e.event_type = ty → e.ip_address = ip →
      e.timestamp < cutoff) :
    scanRecentRev ip ty cutoff xs = [] := by
  induction xs with
  | nil => rfl
  | cons e tail ih =>
    simp only [scanRecentRev]
    by_cases hts : e.timestamp < cutoff
    · rw [if_pos hts]
    · rw [if_neg hts]
      have hmatch : (e.ip_address == ip && e.event_type == ty) = false := by
        by_cases hip : e.ip_address = ip
        · by_cases hty : e.event_type = ty
          · exact absurd (h e (by simp) hty hip) hts
          · simp [hty]
        · simp [hip]
      rw [if_neg (by simp [hmatch])]
      exact ih (fun x hx h1 h2 => h x (by simp [hx]) h1 h2)

theorem get_recent_count (base fs : List AuditEvent) (n : Nat) (ip : String)
    (t : Int)
    (hbase : ∀ e ∈ base, e.event_type = AuditEventType.login_failed →
      e.ip_address = ip → e.timestamp < t - 1800)
    (hfs : ∀ e ∈ fs, e.ip_address = ip ∧
      e.event_type = AuditEventType.login_failed ∧ t - 1800 ≤ e.timestamp) :
    get_recent_events_by_ip { events := base ++ fs, nextId := n } ip
      AuditEventType.login_failed 30 t = fs.reverse := by
  unfold get_recent_events_by_ip
  have h30 : t - 30 * 60 = t - 1800 := by norm_num
  simp only [h30]
  rw [show (({ events := base ++ fs, nextId := n } : AuditLogger).events).reverse
      = fs.reverse ++ base.reverse from List.reverse_append base fs]
  rw [scanRecentRev_all_match ip AuditEventType.login_failed (t - 1800)
    fs.reverse base.reverse
    (fun e he => hfs e (List.mem_reverse.mp he))]
  rw [scanRecentRev_nil_of_out ip AuditEventType.login_failed (t - 1800)
    base.reverse
    (fun e he h1 h2 => hbase e (List.mem_reverse.mp he) h1 h2)]
  simp

/-- The `login_failed` event `log_login_failed` appends. -/
def failEvent (freshId : Nat) (now : Int) (u ip ua r : String) : AuditEvent :=
  mkAuditEvent freshId now AuditEventType.login_failed AuditSeverity.medium
    "user_login" "failed" ip ua none (some u) none
    [("failure_reason", JVal.s r), ("timestamp", JVal.n now)] none

/-- The derived `suspicious_activity` event the detector appends. -/
def alertEvent (freshId : Nat) (now : Int) (ip ua : String) (count : Nat) :
    AuditEvent :=
  mkAuditEvent freshId now AuditEventType.suspicious_activity
    AuditSeverity.high "pattern_analysis" "detected" ip ua none none none
    [("pattern_type", JVal.s "multiple_failed_logins"),
     ("failure_count", JVal.n count),
     ("time_window_minutes", JVal.n 30)] none

theorem log_login_failed_no_alert (l : AuditLogger) (now : Int)
    (u ip ua r : String)
    (hlen : (get_recent_events_by_ip
      (appendEvent l (failEvent l.nextId now u ip ua r)) ip
      AuditEventType.login_failed 30 now).length < failed_login_threshold) :
    log_login_failed l now u ip ua r =
      appendEvent l (failEvent l.nextId now u ip ua r) := by
  have hdef : log_login_failed l now u ip ua r =
      analyze_security_patterns
        (appendEvent l (failEvent l.nextId now u ip ua r))
        (failEvent l.nextId now u ip ua r) now := rfl
  rw [hdef]
  unfold analyze_security_patterns
  rw [if_pos (by rfl :
    ((failEvent l.nextId now u ip ua r).event_type ==
      AuditEventType.login_failed) = true)]
  rw [show (failEvent l.nextId now u ip ua r).ip_address = ip from rfl]
  rw [if_neg (not_le.mpr hlen)]

theorem log_login_failed_alert (l : AuditLogger) (now : Int)
    (u ip ua r : String)
    (hlen : failed_login_threshold ≤ (get_recent_events_by_ip
      (appendEvent l (failEvent l.nextId now u ip ua r)) ip
      AuditEventType.login_failed 30 now).length) :
    log_login_failed l now u ip ua r =
      appendEvent (appendEvent l (failEvent l.nextId now u ip ua r))
        (alertEvent (l.nextId + 1) now ip ua
          (get_recent_events_by_ip
            (appendEvent l (failEvent l.nextId now u ip ua r)) ip
            AuditEventType.login_failed 30 now).length) := by
  have hdef : log_login_failed l now u ip ua r =
      analyze_security_patterns
        (appendEvent l (failEvent l.nextId now u ip ua r))
        (failEvent l.nextId now u ip ua r) now := rfl
  rw [hdef]
  unfold analyze_security_patterns
  rw [if_pos (by rfl :
    ((failEvent l.nextId now u ip ua r).event_type ==
      AuditEventType.login_failed) = true)]
  rw [show (failEvent l.nextId now u ip ua r).ip_address = ip from rfl]
  rw [if_pos hlen]
  rfl

theorem countSuspicious_append (l : AuditLogger) (e : AuditEvent) :
    countSuspicious (appendEvent l e) = countSuspicious l +
      (if e.event_type = AuditEventType.suspicious_activity then 1 else 0) := by
  unfold countSuspicious appendEvent
  rw [List.filter_append]
  by_cases hc : e.event_type = AuditEventType.suspicious_activity
  · simp [hc]
  · have hb : (e.event_type == AuditEventType.suspicious_activity) = false :=
      beq_eq_false_iff_ne.mpr hc
    simp [List.filter, hb, hc]

theorem countSuspiciousHigh_append (l : AuditLogger) (e : AuditEvent) :
    countSuspiciousHigh (appendEvent l e) = countSuspiciousHigh l +
      (if e.event_type = AuditEventType.suspicious_activity ∧
          e.severity = AuditSeverity.high then 1 else 0) := by
  unfold countSuspiciousHigh appendEvent
  rw [List.filter_append]
  by_cases hc : e.event_type = AuditEventType.suspicious_activity ∧
      e.severity = AuditSeverity.high
  · simp [hc.1, hc.2]
  · rw [if_neg hc]
    have hb : (e.event_type == AuditEventType.suspicious_activity &&
        e.severity == AuditSeverity.high) = false := by
      rcases not_and_or.mp hc with h1 | h1
      · simp [beq_eq_false_iff_ne.mpr h1]
      · simp [beq_eq_false_iff_ne.mpr h1]
    simp [List.filter, hb]

theorem burst_step_recent (l0e fs : List AuditEvent) (m : Nat)
    (ip ua u r : String) (t tmin : Int)
    (hbase : ∀ e ∈ l0e, e.event_type = AuditEventType.login_failed →
      e.ip_address = ip → e.timestamp < tmin - 1800)
    (ht : tmin ≤ t)
    (hfs : ∀ e ∈ fs, e.ip_address = ip ∧
      e.event_type = AuditEventType.login_failed ∧ t - 1800 ≤ e.timestamp) :
    get_recent_events_by_ip
      (appendEvent { events := l0e ++ fs, nextId := m }
        (failEvent m t u ip ua r)) ip AuditEventType.login_failed 30 t =
      (fs ++ [failEvent m t u ip ua r]).reverse := by
  have heq : appendEvent { events := l0e ++ fs, nextId := m }
      (failEvent m t u ip ua r) =
      { events := l0e ++ (fs ++ [failEvent m t u ip ua r]), nextId := m + 1 } := by
    show ({ events := (l0e ++ fs) ++ [failEvent m t u ip ua r], nextId := m + 1 } : AuditLogger) = _
    rw [List.append_assoc]
  rw [heq]
  apply get_recent_count
  · intro e he h1 h2
    have := hbase e he h1 h2
    omega
  · intro e he
    rcases List.mem_append.mp he with h | h
    · exact hfs e h
    · simp only [List.mem_singleton] at h
      subst h
      refine ⟨rfl, rfl, ?_⟩
      show t - 1800 ≤ t
      omega

theorem burst_step_no_alert (l0e fs : List AuditEvent) (m : Nat)
    (ip ua u r : String) (t tmin : Int)
    (hbase : ∀ e ∈ l0e, e.event_type = AuditEventType.login_failed →
      e.ip_address = ip → e.timestamp < tmin - 1800)
    (ht : tmin ≤ t)
    (hfs : ∀ e ∈ fs, e.ip_address = ip ∧
      e.event_type = AuditEventType.login_failed ∧ t - 1800 ≤ e.timestamp)
    (hcount : fs.length + 1 < failed_login_threshold) :
    log_login_failed { events := l0e ++ fs, nextId := m } t u ip ua r =
      { events := l0e ++ (fs ++ [failEvent m t u ip ua r]), nextId := m + 1 } := by
  have hrec := burst_step_recent l0e fs m ip ua u r t tmin hbase ht hfs
  have hlen : (get_recent_events_by_ip
      (appendEvent { events := l0e ++ fs, nextId := m }
        (failEvent m t u ip ua r)) ip AuditEventType.login_failed 30 t).length
      < failed_login_threshold := by
    rw [hrec]
    simpa using hcount
  rw [log_login_failed_no_alert _ t u ip ua r hlen]
  show ({ events := (l0e ++ fs) ++ [failEvent m t u ip ua r], nextId := m + 1 } : AuditLogger) = _
  rw [List.append_assoc]

theorem burst_step_alert (l0e fs : List AuditEvent) (m : Nat)
    (ip ua u r : String) (t tmin : Int)
    (hbase : ∀ e ∈ l0e, e.event_type = AuditEventType.login_failed →
      e.ip_address = ip → e.timestamp < tmin - 1800)
    (ht : tmin ≤ t)
    (hfs : ∀ e ∈ fs, e.ip_address = ip ∧
      e.event_type = AuditEventType.login_failed ∧ t - 1800 ≤ e.timestamp)
    (hcount : failed_login_threshold ≤ fs.length + 1) :
    log_login_failed { events := l0e ++ fs, nextId := m } t u ip ua r =
      appendEvent
        { events := l0e ++ (fs ++ [failEvent m t u ip ua r]), nextId := m + 1 }
        (alertEvent (m + 1) t ip ua (fs.length + 1)) := by
  have hrec := burst_step_recent l0e fs m ip ua u r t tmin hbase ht hfs
  have hlen : failed_login_threshold ≤ (get_recent_events_by_ip
      (appendEvent { events := l0e ++ fs, nextId := m }
        (failEvent m t u ip ua r)) ip AuditEventType.login_failed 30 t).length := by
    rw [hrec]
    simpa using hcount
  rw [log_login_failed_alert _ t u ip ua r hlen]
  congr 1
  · show ({ events := (l0e ++ fs) ++ [failEvent m t u ip ua r], nextId := m + 1 } : AuditLogger) = _
    rw [List.append_assoc]
  · show alertEvent (m + 1) t ip ua
        (get_recent_events_by_ip
          (appendEvent { events := l0e ++ fs, nextId := m }
            (failEvent m t u ip ua r)) ip AuditEventType.login_failed 30 t).length =
      alertEvent (m + 1) t ip ua (fs.length + 1)
    rw [hrec]
    simp

theorem countSuspicious_extend (l0 : AuditLogger) (extra : List AuditEvent)
    (n : Nat)
    (hextra : ∀ e ∈ extra, e.event_type ≠ AuditEventType.suspicious_activity) :
    countSuspicious { events := l0.events ++ extra, nextId := n } =
      countSuspicious l0 := by
  unfold countSuspicious
  show (List.filter _ (l0.events ++ extra)).length = _
  rw [List.filter_append]
  have hnil : List.filter
      (fun e => e.event_type == AuditEventType.suspicious_activity) extra = [] := by
    rw [List.filter_eq_nil_iff]
    intro e he
    simp [beq_eq_false_iff_ne.mpr (hextra e he)]
  rw [hnil, List.append_nil]

theorem countSuspiciousHigh_extend (l0 : AuditLogger) (extra : List AuditEvent)
    (n : Nat)
    (hextra : ∀ e ∈ extra, e.event_type ≠ AuditEventType.suspicious_activity) :
    countSuspiciousHigh { events := l0.events ++ extra, nextId := n } =
      countSuspiciousHigh l0 := by
  unfold countSuspiciousHigh
  show (List.filter _ (l0.events ++ extra)).length = _
  rw [List.filter_append]
  have hnil : List.filter
      (fun e => e.event_type == AuditEventType.suspicious_activity &&
        e.severity == AuditSeverity.high) extra = [] := by
    rw [List.filter_eq_nil_iff]
    intro e he
    simp [beq_eq_false_iff_ne.mpr (hextra e he)]
  rw [hnil, List.append_nil]

/-- C4: five `login_failed` events from one IP within a trailing 30-minute
window (with no other same-IP `login_failed` in the window) make the
detector emit exactly one `suspicious_activity` event at `high` severity,
and it emits it while logging the 5th event - not during any earlier one. -/
theorem failed_login_burst_single_alert
    (l0 : AuditLogger) (ip ua : String)
    (u1 u2 u3 u4 u5 r1 r2 r3 r4 r5 : String)
    (t1 t2 t3 t4 t5 : Int)
    (h12 : t1 ≤ t2) (h23 : t2 ≤ t3) (h34 : t3 ≤ t4) (h45 : t4 ≤ t5)
    (hwin : t5 - 1800 ≤ t1)
    (hbase : ∀ e ∈ l0.events, e.event_type = AuditEventType.login_failed →
      e.ip_address = ip → e.timestamp < t1 - 1800) :
    countSuspicious (log_login_failed l0 t1 u1 ip ua r1) = countSuspicious l0 ∧
    countSuspicious (log_login_failed (log_login_failed l0 t1 u1 ip ua r1) t2 u2 ip ua r2) = countSuspicious l0 ∧
    countSuspicious (log_login_failed (log_login_failed (log_login_failed l0 t1 u1 ip ua r1) t2 u2 ip ua r2) t3 u3 ip ua r3) = countSuspicious l0 ∧
    countSuspicious (log_login_failed (log_login_failed (log_login_failed (log_login_failed l0 t1 u1 ip ua r1) t2 u2 ip ua r2) t3 u3 ip ua r3) t4 u4 ip ua r4) = countSuspicious l0 ∧
    countSuspicious (log_login_failed (log_login_failed (log_login_failed (log_login_failed (log_login_failed l0 t1 u1 ip ua r1) t2 u2 ip ua r2) t3 u3 ip ua r3) t4 u4 ip ua r4) t5 u5 ip ua r5) = countSuspicious l0 + 1 ∧
    countSuspiciousHigh (log_login_failed (log_login_failed (log_login_failed (log_login_failed (log_login_failed l0 t1 u1 ip ua r1) t2 u2 ip ua r2) t3 u3 ip ua r3) t4 u4 ip ua r4) t5 u5 ip ua r5) = countSuspiciousHigh l0 + 1 := by
  have hl0 : l0 = { events := l0.events ++ [], nextId := l0.nextId } := by
    rw [List.append_nil]
  have H1 : log_login_failed l0 t1 u1 ip ua r1 =
      { events := l0.events ++ [failEvent l0.nextId t1 u1 ip ua r1], nextId := l0.nextId + 1 } := by
    conv_lhs => rw [hl0]
    exact burst_step_no_alert l0.events [] l0.nextId ip ua u1 r1 t1 t1 hbase
      le_rfl (by intro e he; simp at he) (by simp [failed_login_threshold])
  have H2 : log_login_failed ({ events := l0.events ++ [failEvent l0.nextId t1 u1 ip ua r1], nextId := l0.nextId + 1 }) t2 u2 ip ua r2 =
      { events := l0.events ++ [failEvent l0.nextId t1 u1 ip ua r1, failEvent (l0.nextId + 1) t2 u2 ip ua r2], nextId := l0.nextId + 2 } :=
    burst_step_no_alert l0.events [failEvent l0.nextId t1 u1 ip ua r1] (l0.nextId + 1) ip ua u2 r2 t2 t1 hbase
      h12
      (by
      intro e he
      simp only [List.mem_singleton] at he
      subst he
      refine ⟨rfl, rfl, ?_⟩
      show t2 - 1800 ≤ t1
      omega)
      (by simp [failed_login_threshold])
  have H3 : log_login_failed ({ events := l0.events ++ [failEvent l0.nextId t1 u1 ip ua r1, failEvent (l0.nextId + 1) t2 u2 ip ua r2], nextId := l0.nextId + 2 }) t3 u3 ip ua r3 =
      { events := l0.events ++ [failEvent l0.nextId t1 u1 ip ua r1, failEvent (l0.nextId + 1) t2 u2 ip ua r2, failEvent (l0.nextId + 2) t3 u3 ip ua r3], nextId := l0.nextId + 3 } :=
    burst_step_no_alert l0.events [failEvent l0.nextId t1 u1 ip ua r1, failEvent (l0.nextId + 1) t2 u2 ip ua r2] (l0.nextId + 2) ip ua u3 r3 t3 t1 hbase
      (by omega : t1 ≤ t3)
      (by
      intro e he
      simp only [List.mem_cons, List.mem_singleton, List.not_mem_nil, or_false] at he
      rcases he with h|h
      · subst h
        refine ⟨rfl, rfl, ?_⟩
        show t3 - 1800 ≤ t1
        omega
      · subst h
        refine ⟨rfl, rfl, ?_⟩
        show t3 - 1800 ≤ t2
        omega)
      (by simp [failed_login_threshold])
  have H4 : log_login_failed ({ events := l0.events ++ [failEvent l0.nextId t1 u1 ip ua r1, failEvent (l0.nextId + 1) t2 u2 ip ua r2, failEvent (l0.nextId + 2) t3 u3 ip ua r3], nextId := l0.nextId + 3 }) t4 u4 ip ua r4 =
      { events := l0.events ++ [failEvent l0.nextId t1 u1 ip ua r1, failEvent (l0.nextId + 1) t2 u2 ip ua r2, failEvent (l0.nextId + 2) t3 u3 ip ua r3, failEvent (l0.nextId + 3) t4 u4 ip ua r4], nextId := l0.nextId + 4 } :=
    burst_step_no_alert l0.events [failEvent l0.nextId t1 u1 ip ua r1, failEvent (l0.nextId + 1) t2 u2 ip ua r2, failEvent (l0.nextId + 2) t3 u3 ip ua r3] (l0.nextId + 3) ip ua u4 r4 t4 t1 hbase
      (by omega : t1 ≤ t4)
      (by
      intro e he
      simp only [List.mem_cons, List.mem_singleton, List.not_mem_nil, or_false] at he
      rcases he with h|h|h
      · subst h
        refine ⟨rfl, rfl, ?_⟩
        show t4 - 1800 ≤ t1
        omega
      · subst h
        refine ⟨rfl, rfl, ?_⟩
        show t4 - 1800 ≤ t2
        omega
      · subst h
        refine ⟨rfl, rfl, ?_⟩
        show t4 - 1800 ≤ t3
        omega)
      (by simp [failed_login_threshold])
  have H5 : log_login_failed ({ events := l0.events ++ [failEvent l0.nextId t1 u1 ip ua r1, failEvent (l0.nextId + 1) t2 u2 ip ua r2, failEvent (l0.nextId + 2) t3 u3 ip ua r3, failEvent (l0.nextId + 3) t4 u4 ip ua r4], nextId := l0.nextId + 4 }) t5 u5 ip ua r5 =
      appendEvent { events := l0.events ++ [failEvent l0.nextId t1 u1 ip ua r1, failEvent (l0.nextId + 1) t2 u2 ip ua r2, failEvent (l0.nextId + 2) t3 u3 ip ua r3, failEvent (l0.nextId + 3) t4 u4 ip ua r4, failEvent (l0.nextId + 4) t5 u5 ip ua r5], nextId := l0.nextId + 5 }
        (alertEvent (l0.nextId + 5) t5 ip ua 5) :=
    burst_step_alert l0.events [failEvent l0.nextId t1 u1 ip ua r1, failEvent (l0.nextId + 1) t2 u2 ip ua r2, failEvent (l0.nextId + 2) t3 u3 ip ua r3, failEvent (l0.nextId + 3) t4 u4 ip ua r4] (l0.nextId + 4) ip ua u5 r5 t5 t1 hbase
      (by omega : t1 ≤ t5)
      (by
      intro e he
      simp only [List.mem_cons, List.mem_singleton, List.not_mem_nil, or_false] at he
      rcases he with h|h|h|h
      · subst h
        refine ⟨rfl, rfl, ?_⟩
        show t5 - 1800 ≤ t1
        omega
      · subst h
        refine ⟨rfl, rfl, ?_⟩
        show t5 - 1800 ≤ t2
        omega
      · subst h
        refine ⟨rfl, rfl, ?_⟩
        show t5 - 1800 ≤ t3
        omega
      · subst h
        refine ⟨rfl, rfl, ?_⟩
        show t5 - 1800 ≤ t4
        omega)
      (by simp [failed_login_threshold])
  refine ⟨?_, ?_, ?_, ?_, ?_, ?_⟩
  · rw [H1]
    exact countSuspicious_extend l0 [failEvent l0.nextId t1 u1 ip ua r1] (l0.nextId + 1)
      (by
      intro e he
      simp only [List.mem_singleton] at he
      subst he
      simp [failEvent, mkAuditEvent])
  · rw [H1, H2]
    exact countSuspicious_extend l0 [failEvent l0.nextId t1 u1 ip ua r1, failEvent (l0.nextId + 1) t2 u2 ip ua r2] (l0.nextId + 2)
      (by
      intro e he
      simp only [List.mem_cons, List.mem_singleton, List.not_mem_nil, or_false] at he
      rcases he with h|h <;> (subst h; simp [failEvent, mkAuditEvent]))
  · rw [H1, H2, H3]
    exact countSuspicious_extend l0 [failEvent l0.nextId t1 u1 ip ua r1, failEvent (l0.nextId + 1) t2 u2 ip ua r2, failEvent (l0.nextId + 2) t3 u3 ip ua r3] (l0.nextId + 3)
      (by
      intro e he
      simp only [List.mem_cons, List.mem_singleton, List.not_mem_nil, or_false] at he
      rcases he with h|h|h <;> (subst h; simp [failEvent, mkAuditEvent]))
  · rw [H1, H2, H3, H4]
    exact countSuspicious_extend l0 [failEvent l0.nextId t1 u1 ip ua r1, failEvent (l0.nextId + 1) t2 u2 ip ua r2, failEvent (l0.nextId + 2) t3 u3 ip ua r3, failEvent (l0.nextId + 3) t4 u4 ip ua r4] (l0.nextId + 4)
      (by
      intro e he
      simp only [List.mem_cons, List.mem_singleton, List.not_mem_nil, or_false] at he
      rcases he with h|h|h|h <;> (subst h; simp [failEvent, mkAuditEvent]))
  · rw [H1, H2, H3, H4, H5, countSuspicious_append]
    rw [countSuspicious_extend l0 [failEvent l0.nextId t1 u1 ip ua r1, failEvent (l0.nextId + 1) t2 u2 ip ua r2, failEvent (l0.nextId + 2) t3 u3 ip ua r3, failEvent (l0.nextId + 3) t4 u4 ip ua r4, failEvent (l0.nextId + 4) t5 u5 ip ua r5] (l0.nextId + 5)
      (by
      intro e he
      simp only [List.mem_cons, List.mem_singleton, List.not_mem_nil, or_false] at he
      rcases he with h|h|h|h|h <;> (subst h; simp [failEvent, mkAuditEvent]))]
    simp [alertEvent, mkAuditEvent]
  · rw [H1, H2, H3, H4, H5, countSuspiciousHigh_append]
    rw [countSuspiciousHigh_extend l0 [failEvent l0.nextId t1 u1 ip ua r1, failEvent (l0.nextId + 1) t2 u2 ip ua r2, failEvent (l0.nextId + 2) t3 u3 ip ua r3, failEvent (l0.nextId + 3) t4 u4 ip ua r4, failEvent (l0.nextId + 4) t5 u5 ip ua r5] (l0.nextId + 5)
      (by
      intro e he
      simp only [List.mem_cons, List.mem_singleton, List.not_mem_nil, or_false] at he
      rcases he with h|h|h|h|h <;> (subst h; simp [failEvent, mkAuditEvent]))]
    simp [alertEvent, mkAuditEvent]

def burstL0 : AuditLogger := { events := [], nextId := 0 }

/-- Witness for C4: five failed logins from 203.0.113.5 at times 0..240
seconds on an empty log. -/
theorem failed_login_burst_single_alert_witness :
    countSuspicious (log_login_failed burstL0 0 "bob" "203.0.113.5" "ua" "bad-password") = countSuspicious burstL0 ∧
    countSuspicious (log_login_failed (log_login_failed burstL0 0 "bob" "203.0.113.5" "ua" "bad-password") 60 "bob" "203.0.113.5" "ua" "bad-password") = countSuspicious burstL0 ∧
    countSuspicious (log_login_failed (log_login_failed (log_login_failed burstL0 0 "bob" "203.0.113.5" "ua" "bad-password") 60 "bob" "203.0.113.5" "ua" "bad-password") 120 "bob" "203.0.113.5" "ua" "bad-password") = countSuspicious burstL0 ∧
    countSuspicious (log_login_failed (log_login_failed (log_login_failed (log_login_failed burstL0 0 "bob" "203.0.113.5" "ua" "bad-password") 60 "bob" "203.0.113.5" "ua" "bad-password") 120 "bob" "203.0.113.5" "ua" "bad-password") 180 "bob" "203.0.113.5" "ua" "bad-password") = countSuspicious burstL0 ∧
    countSuspicious (log_login_failed (log_login_failed (log_login_failed (log_login_failed (log_login_failed burstL0 0 "bob" "203.0.113.5" "ua" "bad-password") 60 "bob" "203.0.113.5" "ua" "bad-password") 120 "bob" "203.0.113.5" "ua" "bad-password") 180 "bob" "203.0.113.5" "ua" "bad-password") 240 "bob" "203.0.113.5" "ua" "bad-password") = countSuspicious burstL0 + 1 ∧
    countSuspiciousHigh (log_login_failed (log_login_failed (log_login_failed (log_login_failed (log_login_failed burstL0 0 "bob" "203.0.113.5" "ua" "bad-password") 60 "bob" "203.0.113.5" "ua" "bad-password") 120 "bob" "203.0.113.5" "ua" "bad-password") 180 "bob" "203.0.113.5" "ua" "bad-password") 240 "bob" "203.0.113.5" "ua" "bad-password") = countSuspiciousHigh burstL0 + 1 :=
  failed_login_burst_single_alert burstL0 "203.0.113.5" "ua"
    "bob" "bob" "bob" "bob" "bob"
    "bad-password" "bad-password" "bad-password" "bad-password" "bad-password"
    0 60 120 180 240
    (by decide) (by decide) (by decide) (by decide) (by decide)
    (by intro e he; simp [burstL0] at he)
